import Mathlib

/-!
Verification development for the of_lldp link-discovery NApp (src/main.py).

The repository core is two components operating on an externally owned
switch inventory:

* the Prober (`Main.execute`): each tick it iterates the switches, filters
  by connectivity and negotiated OpenFlow version, skips the reserved
  local port 65534, builds an Ethernet/LLDP probe frame per remaining
  interface and publishes a version-specific PacketOut command;
* the Correlator (`Main.notify_uplink_detected`): for each inbound
  packet-in event it decodes Ethernet, filters by the LLDP ethertype,
  decodes the LLDP payload and its chassis-id as a DPID, looks the decoded
  dpid up in the inventory and publishes a link-discovered event.

Machine integers are modelled as `Nat` with explicit `% 256` / width
truncation where the wire format forces it; byte strings are `List Nat`.
The binary codec (Ethernet, LLDP TLVs, DPID, UBInt16) lives in the
external python-openflow library, not in this repository; it is modelled
from the spec's wire-format section (fixed LLDP multicast destination,
14-byte Ethernet header, chassis-id TLV sub-value = 8-byte dpid, port-id
TLV sub-value = 2-byte port number, decode failures are structural/size
errors represented by `Except`).
-/

/-- Big-endian bytes of `n`, exactly `w` bytes wide (higher bytes of `n`
are truncated, as packing a fixed-width field does). -/
def bytesOfNat : Nat → Nat → List Nat
  | 0, _ => []
  | w + 1, n => bytesOfNat w (n / 256) ++ [n % 256]

/-- The natural number denoted by a big-endian byte string. -/
def natOfBytes (l : List Nat) : Nat :=
  l.foldl (fun a b => a * 256 + b) 0

/-! ## Codec collaborator (python-openflow), modelled from the spec -/

/-- Modelled from the spec: `EtherType.LLDP` of the codec library,
the LLDP ethertype 0x88CC. -/
def etherTypeLLDP : Nat := 0x88CC

/-- Modelled from the spec: `constants.LLDP_MULTICAST_MAC`
(the constants module is not under src/); the fixed LLDP multicast
destination MAC 01:80:C2:00:00:0E. -/
def lldpMulticastMac : List Nat := [0x01, 0x80, 0xC2, 0x00, 0x00, 0x0E]

/-- Modelled from the spec: `DPID.pack` — the canonical fixed-width
datapath-identifier encoding, 8 big-endian bytes. -/
def dpid_pack (d : Nat) : List Nat := bytesOfNat 8 d

/-- Modelled from the spec: `DPID.unpack` — reads exactly the first
8 bytes of the buffer; a shorter buffer is a structural/size error. -/
def dpid_unpack (buff : List Nat) : Except Unit Nat :=
  if 8 ≤ buff.length then Except.ok (natOfBytes (buff.take 8))
  else Except.error ()

/-- Modelled from the spec: `UBInt16.pack` — 2 big-endian bytes. -/
def ubint16_pack (n : Nat) : List Nat := bytesOfNat 2 n

/-- Modelled from the spec: `UBInt16.unpack` — reads the first 2 bytes;
a shorter buffer is a structural/size error. -/
def ubint16_unpack (buff : List Nat) : Except Unit Nat :=
  match buff with
  | b0 :: b1 :: _ => Except.ok (b0 * 256 + b1)
  | _ => Except.error ()

/-- Modelled from the spec: one LLDP TLV — a 2-byte header holding
(type <<< 9) ||| length, then `length` value bytes. -/
def tlv_pack (t : Nat) (v : List Nat) : List Nat :=
  bytesOfNat 2 (t * 512 + v.length) ++ v

/-- Modelled from the spec: TLV decode — reads the 2-byte header, then
takes the announced number of value bytes (a short tail yields a short
value, as a byte-slice does); returns (value, rest of buffer). -/
def tlv_unpack (buff : List Nat) : Except Unit (List Nat × List Nat) :=
  match buff with
  | b0 :: b1 :: rest =>
    Except.ok (rest.take ((b0 * 256 + b1) % 512), rest.drop ((b0 * 256 + b1) % 512))
  | _ => Except.error ()

/-- Modelled from the spec: TLV-with-subtype decode — the first value
byte is the subtype, the remainder is the sub-value; an empty value is a
structural error. Returns (subtype, sub-value, rest of buffer). -/
def tlv_sub_unpack (buff : List Nat) : Except Unit (Nat × List Nat × List Nat) :=
  match tlv_unpack buff with
  | Except.error e => Except.error e
  | Except.ok (s :: sv, rest) => Except.ok (s, sv, rest)
  | Except.ok ([], _) => Except.error ()

/-- Modelled from the spec: the subtype byte the library writes in the
chassis-id and port-id TLVs (locally assigned). -/
def lldpSubType : Nat := 7

/-- Modelled from the spec: `LLDP.pack` — chassis-id TLV (type 1) with a
subtype byte and the given sub-value, port-id TLV (type 2) likewise, a
TTL TLV (type 3, value 120) and an end TLV (type 0). -/
def lldp_pack (chassis_sub_value port_sub_value : List Nat) : List Nat :=
  tlv_pack 1 (lldpSubType :: chassis_sub_value) ++
  tlv_pack 2 (lldpSubType :: port_sub_value) ++
  tlv_pack 3 (ubint16_pack 120) ++
  tlv_pack 0 []

/-- The decoded view of an LLDP payload: the chassis-id and port-id TLV
sub-values, as raw bytes. -/
structure LLDPView where
  chassis_sub_value : List Nat
  port_sub_value : List Nat
  deriving Repr, DecidableEq

/-- Modelled from the spec: `LLDP.unpack` — sequentially decodes the
chassis-id TLV, the port-id TLV, the TTL TLV and the end TLV; any missing
header or empty subtyped value is a structural/size error. -/
def lldp_unpack (buff : List Nat) : Except Unit LLDPView :=
  match tlv_sub_unpack buff with
  | Except.error e => Except.error e
  | Except.ok (_, csv, r1) =>
    match tlv_sub_unpack r1 with
    | Except.error e => Except.error e
    | Except.ok (_, psv, r2) =>
      match tlv_unpack r2 with
      | Except.error e => Except.error e
      | Except.ok (_, r3) =>
        match tlv_unpack r3 with
        | Except.error e => Except.error e
        | Except.ok _ => Except.ok ⟨csv, psv⟩

/-- A decoded Ethernet frame. -/
structure EthernetView where
  destination : List Nat
  source : List Nat
  ether_type : Nat
  data : List Nat
  deriving Repr, DecidableEq

/-- Modelled from the spec: `Ethernet.pack` — 6-byte destination,
6-byte source, 2-byte ethertype, then the payload. -/
def ethernet_pack (destination source : List Nat) (ether_type : Nat)
    (data : List Nat) : List Nat :=
  destination ++ source ++ bytesOfNat 2 ether_type ++ data

/-- Modelled from the spec: `Ethernet.unpack` — a buffer shorter than the
14-byte header is a structural/size error; the payload is the rest. -/
def ethernet_unpack (buff : List Nat) : Except Unit EthernetView :=
  if 14 ≤ buff.length then
    Except.ok ⟨buff.take 6, (buff.drop 6).take 6,
               natOfBytes ((buff.drop 12).take 2), buff.drop 14⟩
  else Except.error ()

/-! ## Data model (spec section 3; main.py reads these snapshots) -/

/-- An interface snapshot: switch-scoped port number and MAC address. -/
structure Interface where
  port_number : Nat
  address : List Nat
  deriving Repr, DecidableEq

/-- A switch snapshot. `dpid` is the datapath identifier (the canonical
64-bit value behind the colon-separated string form; `Switch.id` in the
inventory equals it). `of_version` models
`switch.connection.protocol.version` at src/main.py:28, with `none` for
an absent protocol-version attribute (the AttributeError branch at
src/main.py:29-30). -/
structure Switch where
  dpid : Nat
  connected : Bool
  of_version : Option Nat
  interfaces : List Interface
  deriving Repr, DecidableEq

/-- A version-specific output action (pyof AO10 / AO13), src/main.py:8,10. -/
inductive ActionOutput where
  | AO10 (port : Nat)
  | AO13 (port : Nat)
  deriving Repr, DecidableEq

/-- A version-specific PacketOut control message (pyof PO10 / PO13)
carrying its body bytes and action list, src/main.py:9,11. -/
inductive PacketOut where
  | PO10 (data : List Nat) (actions : List ActionOutput)
  | PO13 (data : List Nat) (actions : List ActionOutput)
  deriving Repr, DecidableEq

/-- One outbound probe event put on the msg_out buffer
(src/main.py:56-60); the destination connection is identified by the
owning switch's dpid. -/
structure ProbeEvent where
  destination : Nat
  message : PacketOut
  deriving Repr, DecidableEq

/-- An inbound packet-in event as the Correlator sees it:
`event.source.switch.id`, `event.message.in_port`, `event.message.data`
(src/main.py:74,86-87). -/
structure PacketInEvent where
  source_switch_id : Nat
  in_port : Nat
  data : List Nat
  deriving Repr, DecidableEq

/-- The link-discovered event content (src/main.py:92-94). -/
structure LinkEvent where
  switch_a_id : Nat
  port_a : Nat
  switch_b_id : Nat
  port_b : Nat
  deriving Repr, DecidableEq

/-- A python exception escaping a handler: a struct.error raised by an
unpack outside any handler for it, or an AttributeError. -/
inductive PyError where
  | structError
  | attributeError
  deriving Repr, DecidableEq

/-! ## Main.build_lldp_packet_out (src/main.py:103-136) -/

/-- `Main.build_lldp_packet_out` (src/main.py:119-136): version 0x01 and
0x04 pick the wire-format family; any other version (`None` included)
yields no command. The message body is `data` and the action list is the
single output action targeting `port_number`. -/
def build_lldp_packet_out (version : Option Nat) (port_number : Nat)
    (data : List Nat) : Option PacketOut :=
  if version == some 0x01 then
    some (PacketOut.PO10 data [ActionOutput.AO10 port_number])
  else if version == some 0x04 then
    some (PacketOut.PO13 data [ActionOutput.AO13 port_number])
  else
    none

/-! ## Main.execute, the Prober tick (src/main.py:23-63) -/

/-- The serialized probe frame for one (switch, interface) pair
(src/main.py:41-53): LLDP payload with chassis-id sub-value = packed
dpid and port-id sub-value = packed port number, wrapped in an Ethernet
frame to the LLDP multicast MAC with the LLDP ethertype. -/
def probe_frame_bytes (dpid : Nat) (mac : List Nat) (port : Nat) : List Nat :=
  ethernet_pack lldpMulticastMac mac etherTypeLLDP
    (lldp_pack (dpid_pack dpid) (ubint16_pack port))

/-- The body of the interface loop (src/main.py:35-55): the reserved
local port 65534 is skipped, otherwise the probe frame is built and
handed to `build_lldp_packet_out`; `none` means no command is published
for this interface. -/
def process_interface (version : Option Nat) (dpid : Nat)
    (intf : Interface) : Option PacketOut :=
  if intf.port_number == 65534 then none
  else build_lldp_packet_out version intf.port_number
    (probe_frame_bytes dpid intf.address intf.port_number)

/-- The per-switch body of the Prober tick (src/main.py:26-60): a switch
that is not connected or whose negotiated version is outside {0x01, 0x04}
is skipped, otherwise each interface contributes its probe event (when
the builder returned a command). -/
def execute_switch (sw : Switch) : List ProbeEvent :=
  if sw.connected && (sw.of_version == some 0x01 || sw.of_version == some 0x04) then
    sw.interfaces.filterMap fun intf =>
      (process_interface sw.of_version sw.dpid intf).map
        fun po => ⟨sw.dpid, po⟩
  else []

/-- `Main.execute` (src/main.py:23-63): one Prober tick over the switch
snapshot, returning the probe events put on the msg_out buffer, in order. -/
def execute (switches : List Switch) : List ProbeEvent :=
  switches.flatMap execute_switch

/-- One Prober tick over a snapshot in which reading some switch may
itself raise (the spec's "switch object in an inconsistent state"):
`Except.error ()` stands for a switch whose processing raises an
exception other than the AttributeError handled at src/main.py:29-30
(that one is already `of_version = none`). The loop body at
src/main.py:27-60 has no handler for such an exception, so it propagates
out of `execute` at once: the result is the events published before the
raise, paired with the escaped exception if any. -/
def executeD : List (Except Unit Switch) → List ProbeEvent × Option Unit
  | [] => ([], none)
  | Except.error e :: _ => ([], some e)
  | Except.ok sw :: rest =>
    (execute_switch sw ++ (executeD rest).1, (executeD rest).2)

/-! ## Main.notify_uplink_detected, the Correlator (src/main.py:65-97) -/

/-- `controller.get_switch_by_dpid` over the inventory snapshot: the
switch registered under the decoded datapath identifier, if any
(src/main.py:89). -/
def get_switch_by_dpid (switches : List Switch) (d : Nat) : Option Switch :=
  switches.find? fun sw => sw.dpid == d

/-- `Main.notify_uplink_detected` (src/main.py:65-97). `Except.ok none`:
the handler returned without publishing; `Except.ok (some l)`: it
published the link event `l` on the app buffer; `Except.error e`: an
exception escaped the handler. The Ethernet unpack (line 74) is outside
any handler, so its failure escapes. The LLDP and DPID unpacks
(lines 77-78) sit in the try whose `except struct.error` returns
silently. The port-id unpack (line 90) is outside that try, so its
failure escapes. When the inventory lookup misses, `switch_b` is `None`
and building the event content dereferences `switch_b.id` (line 94),
raising an AttributeError. `unpack_non_empty` (src/main.py:138-160) is
the plain unpack of each class after unwrapping a `.value` carrier, which
on these byte strings is the codec unpack itself. -/
def notify_uplink_detected (switches : List Switch) (event : PacketInEvent) :
    Except PyError (Option LinkEvent) :=
  match ethernet_unpack event.data with
  | Except.error _ => Except.error PyError.structError
  | Except.ok ethernet =>
    if ethernet.ether_type == etherTypeLLDP then
      match lldp_unpack ethernet.data with
      | Except.error _ => Except.ok none
      | Except.ok lldp =>
        match dpid_unpack lldp.chassis_sub_value with
        | Except.error _ => Except.ok none
        | Except.ok dpid =>
          match ubint16_unpack lldp.port_sub_value with
          | Except.error _ => Except.error PyError.structError
          | Except.ok port_b =>
            match get_switch_by_dpid switches dpid with
            | none => Except.error PyError.attributeError
            | some switch_b =>
              Except.ok (some ⟨event.source_switch_id, event.in_port,
                               switch_b.dpid, port_b⟩)
    else
      Except.ok none

/-! ## Arithmetic facts about the byte helpers -/

theorem length_bytesOfNat (w n : Nat) : (bytesOfNat w n).length = w := by
  induction w generalizing n with
  | zero => rfl
  | succ w ih => simp [bytesOfNat, ih]

theorem natOfBytes_append_singleton (l : List Nat) (x : Nat) :
    natOfBytes (l ++ [x]) = natOfBytes l * 256 + x := by
  simp [natOfBytes, List.foldl_append]

theorem natOfBytes_bytesOfNat (w n : Nat) :
    natOfBytes (bytesOfNat w n) = n % 256 ^ w := by
  induction w generalizing n with
  | zero => simp [bytesOfNat, natOfBytes, Nat.mod_one]
  | succ w ih =>
    rw [bytesOfNat, natOfBytes_append_singleton, ih]
    rw [Nat.pow_succ', Nat.mod_mul]
    ring

theorem natOfBytes_bytesOfNat_of_lt (w n : Nat) (h : n < 256 ^ w) :
    natOfBytes (bytesOfNat w n) = n := by
  rw [natOfBytes_bytesOfNat, Nat.mod_eq_of_lt h]

/-! ## Codec round-trip lemmas -/

theorem tlv_unpack_tlv_pack (t : Nat) (v rest : List Nat)
    (_ht : t < 128) (hv : v.length < 512) :
    tlv_unpack (tlv_pack t v ++ rest) = Except.ok (v, rest) := by
  have hb : tlv_pack t v ++ rest
      = (t * 512 + v.length) / 256 % 256 ::
        ((t * 512 + v.length) % 256) :: (v ++ rest) := by
    simp [tlv_pack, bytesOfNat]
  have hmod : ((t * 512 + v.length) / 256 % 256 * 256
      + (t * 512 + v.length) % 256) % 512 = v.length := by omega
  rw [hb]
  simp only [tlv_unpack]
  rw [hmod, List.take_left' rfl, List.drop_left' rfl]

theorem tlv_sub_unpack_pack (t s : Nat) (sv rest : List Nat)
    (ht : t < 128) (hsv : sv.length < 511) :
    tlv_sub_unpack (tlv_pack t (s :: sv) ++ rest) = Except.ok (s, sv, rest) := by
  have h : tlv_unpack (tlv_pack t (s :: sv) ++ rest) = Except.ok (s :: sv, rest) :=
    tlv_unpack_tlv_pack t (s :: sv) rest ht (by simp only [List.length_cons]; omega)
  simp only [tlv_sub_unpack, h]

theorem lldp_unpack_lldp_pack (csv psv : List Nat)
    (hc : csv.length < 511) (hp : psv.length < 511) :
    lldp_unpack (lldp_pack csv psv) = Except.ok ⟨csv, psv⟩ := by
  have hshape : lldp_pack csv psv
      = tlv_pack 1 (lldpSubType :: csv) ++ (tlv_pack 2 (lldpSubType :: psv)
        ++ (tlv_pack 3 (ubint16_pack 120) ++ tlv_pack 0 [])) := by
    simp [lldp_pack]
  have h1 := tlv_sub_unpack_pack 1 lldpSubType csv
    (tlv_pack 2 (lldpSubType :: psv) ++ (tlv_pack 3 (ubint16_pack 120) ++ tlv_pack 0 []))
    (by omega) hc
  have h2 := tlv_sub_unpack_pack 2 lldpSubType psv
    (tlv_pack 3 (ubint16_pack 120) ++ tlv_pack 0 []) (by omega) hp
  have h3 : tlv_unpack (tlv_pack 3 (ubint16_pack 120) ++ tlv_pack 0 [])
      = Except.ok (ubint16_pack 120, tlv_pack 0 []) :=
    tlv_unpack_tlv_pack 3 (ubint16_pack 120) (tlv_pack 0 []) (by omega)
      (by rw [ubint16_pack, length_bytesOfNat]; omega)
  have h4 : tlv_unpack (tlv_pack 0 []) = Except.ok ([], []) := rfl
  rw [hshape]
  simp only [lldp_unpack, h1, h2, h3, h4]

theorem ethernet_unpack_ethernet_pack (dst src : List Nat) (et : Nat)
    (data : List Nat) (hdst : dst.length = 6) (hsrc : src.length = 6)
    (het : et < 65536) :
    ethernet_unpack (ethernet_pack dst src et data) =
      Except.ok ⟨dst, src, et, data⟩ := by
  have hshape : ethernet_pack dst src et data
      = dst ++ (src ++ (bytesOfNat 2 et ++ data)) := by
    simp [ethernet_pack]
  have e1 : (dst ++ (src ++ (bytesOfNat 2 et ++ data))).take 6 = dst :=
    List.take_left' hdst
  have e2 : (dst ++ (src ++ (bytesOfNat 2 et ++ data))).drop 6
      = src ++ (bytesOfNat 2 et ++ data) := List.drop_left' hdst
  have e3 : (src ++ (bytesOfNat 2 et ++ data)).take 6 = src :=
    List.take_left' hsrc
  have e4 : (dst ++ (src ++ (bytesOfNat 2 et ++ data))).drop 12
      = bytesOfNat 2 et ++ data := by
    rw [← List.append_assoc]
    exact List.drop_left' (by simp [hdst, hsrc])
  have e5 : (bytesOfNat 2 et ++ data).take 2 = bytesOfNat 2 et :=
    List.take_left' (length_bytesOfNat 2 et)
  have e6 : (dst ++ (src ++ (bytesOfNat 2 et ++ data))).drop 14 = data := by
    rw [← List.append_assoc, ← List.append_assoc]
    exact List.drop_left' (by simp [hdst, hsrc, length_bytesOfNat])
  have e7 : 14 ≤ (dst ++ (src ++ (bytesOfNat 2 et ++ data))).length := by
    simp [hdst, hsrc, length_bytesOfNat]
    omega
  rw [hshape]
  unfold ethernet_unpack
  rw [if_pos e7, e1, e2, e3, e4, e5, e6,
    natOfBytes_bytesOfNat_of_lt 2 et (by norm_num; omega)]

theorem dpid_unpack_dpid_pack (d : Nat) (hd : d < 18446744073709551616) :
    dpid_unpack (dpid_pack d) = Except.ok d := by
  unfold dpid_unpack dpid_pack
  rw [if_pos (by rw [length_bytesOfNat]),
    List.take_of_length_le (by rw [length_bytesOfNat]),
    natOfBytes_bytesOfNat_of_lt 8 d (by norm_num; omega)]

theorem ubint16_unpack_ubint16_pack (p : Nat) (hp : p < 65536) :
    ubint16_unpack (ubint16_pack p) = Except.ok p := by
  have hb : ubint16_pack p = p / 256 % 256 :: (p % 256) :: [] := by
    simp [ubint16_pack, bytesOfNat]
  rw [hb]
  simp only [ubint16_unpack]
  congr 1
  omega

/-! ## Claim theorems -/

/-- C2: a switch that is not connected, or whose negotiated OpenFlow
version is outside the supported set {0x01, 0x04}, contributes zero probe
events to the Prober tick, whatever its interface collection; the tick
over a snapshot beginning with such a switch is the tick over the rest
(the switch is skipped, no error is modelled to escape). -/
theorem prober_skips_ineligible_switch (sw : Switch)
    (h : ¬(sw.connected = true ∧
      (sw.of_version = some 0x01 ∨ sw.of_version = some 0x04))) :
    execute_switch sw = [] ∧
    ∀ rest : List Switch, execute (sw :: rest) = execute rest := by
  have hcond : ¬(sw.connected &&
      (sw.of_version == some 0x01 || sw.of_version == some 0x04)) = true := by
    simp only [Bool.and_eq_true, Bool.or_eq_true, beq_iff_eq]
    exact h
  have hsw : execute_switch sw = [] := by
    unfold execute_switch
    rw [if_neg hcond]
  refine ⟨hsw, fun rest => ?_⟩
  unfold execute
  rw [List.flatMap_cons, hsw, List.nil_append]

/-- Witness for C2 at a concrete disconnected switch. -/
theorem prober_skips_ineligible_switch_witness :
    execute_switch ⟨258, false, some 0x04, [⟨3, [170, 187, 204, 221, 238, 1]⟩]⟩ = [] ∧
    ∀ rest : List Switch,
      execute (⟨258, false, some 0x04, [⟨3, [170, 187, 204, 221, 238, 1]⟩]⟩ :: rest)
        = execute rest :=
  prober_skips_ineligible_switch
    ⟨258, false, some 0x04, [⟨3, [170, 187, 204, 221, 238, 1]⟩]⟩ (by simp)

/-- C3: an interface whose port number is the reserved local-port
sentinel 65534 never yields a probe command, whatever the version and
dpid (i.e. whatever the owning switch's eligibility); a switch whose only
interface is reserved publishes nothing. -/
theorem prober_skips_reserved_port (version : Option Nat) (dpid : Nat)
    (intf : Interface) (h : intf.port_number = 65534) :
    process_interface version dpid intf = none ∧
    ∀ sw : Switch, sw.interfaces = [intf] → execute_switch sw = [] := by
  have hp : process_interface version dpid intf = none := by
    unfold process_interface
    rw [if_pos (by simp [h])]
  refine ⟨hp, fun sw hsw => ?_⟩
  unfold execute_switch
  rw [hsw]
  have hp' : process_interface sw.of_version sw.dpid intf = none := by
    unfold process_interface
    rw [if_pos (by simp [h])]
  by_cases hc : (sw.connected &&
      (sw.of_version == some 0x01 || sw.of_version == some 0x04)) = true
  · rw [if_pos hc]
    simp [hp']
  · rw [if_neg hc]

/-- Witness for C3 at a concrete reserved interface on an eligible switch. -/
theorem prober_skips_reserved_port_witness :
    process_interface (some 0x04) 258 ⟨65534, [170, 187, 204, 221, 238, 1]⟩ = none ∧
    ∀ sw : Switch, sw.interfaces = [⟨65534, [170, 187, 204, 221, 238, 1]⟩] →
      execute_switch sw = [] :=
  prober_skips_reserved_port (some 0x04) 258 ⟨65534, [170, 187, 204, 221, 238, 1]⟩ rfl

/-- C4: the command builder returns no command for any version outside
{0x01, 0x04} (the absent version included) and cannot fail otherwise; for
the two supported versions it returns the version-specific PacketOut
whose data is the given payload and whose action list is exactly one
output action targeting the given port. -/
theorem build_lldp_packet_out_spec (version : Option Nat) (port_number : Nat)
    (data : List Nat) :
    (version ≠ some 0x01 → version ≠ some 0x04 →
      build_lldp_packet_out version port_number data = none) ∧
    build_lldp_packet_out (some 0x01) port_number data
      = some (PacketOut.PO10 data [ActionOutput.AO10 port_number]) ∧
    build_lldp_packet_out (some 0x04) port_number data
      = some (PacketOut.PO13 data [ActionOutput.AO13 port_number]) := by
  refine ⟨fun h1 h4 => ?_, rfl, rfl⟩
  unfold build_lldp_packet_out
  rw [if_neg (by simpa using h1), if_neg (by simpa using h4)]

/-- Witness for C4: the absent version yields no command, version 0x01
yields the v0x01 message. -/
theorem build_lldp_packet_out_spec_witness :
    build_lldp_packet_out none 3 [255] = none ∧
    build_lldp_packet_out (some 0x01) 3 [255]
      = some (PacketOut.PO10 [255] [ActionOutput.AO10 3]) :=
  ⟨(build_lldp_packet_out_spec none 3 [255]).1 (by simp) (by simp),
   (build_lldp_packet_out_spec (some 0x01) 3 [255]).2.1⟩

/-- C9: a switch whose connection lacks a protocol-version attribute
(the caught AttributeError, modelled as `of_version = none`) fails the
eligibility filter: no probe command is emitted for it and the tick
continues normally over the rest of the snapshot. -/
theorem prober_skips_versionless_switch (sw : Switch)
    (h : sw.of_version = none) :
    execute_switch sw = [] ∧
    ∀ rest : List Switch, execute (sw :: rest) = execute rest := by
  have hsw : execute_switch sw = [] := by
    unfold execute_switch
    rw [if_neg (by simp [h])]
  refine ⟨hsw, fun rest => ?_⟩
  unfold execute
  rw [List.flatMap_cons, hsw, List.nil_append]

/-- Witness for C9 at a concrete connected switch without a negotiated
version. -/
theorem prober_skips_versionless_switch_witness :
    execute_switch ⟨258, true, none, [⟨3, [170, 187, 204, 221, 238, 1]⟩]⟩ = [] ∧
    ∀ rest : List Switch,
      execute (⟨258, true, none, [⟨3, [170, 187, 204, 221, 238, 1]⟩]⟩ :: rest)
        = execute rest :=
  prober_skips_versionless_switch
    ⟨258, true, none, [⟨3, [170, 187, 204, 221, 238, 1]⟩]⟩ rfl

/-- C5: an inbound frame whose bytes decode to an Ethernet frame with a
non-LLDP ethertype makes the Correlator return without publishing any
link event, for any inventory and any payload. -/
theorem correlator_ignores_non_lldp (switches : List Switch)
    (event : PacketInEvent) (eth : EthernetView)
    (hdec : ethernet_unpack event.data = Except.ok eth)
    (hty : eth.ether_type ≠ etherTypeLLDP) :
    notify_uplink_detected switches event = Except.ok none := by
  unfold notify_uplink_detected
  simp only [hdec]
  rw [if_neg (by simpa using hty)]

/-- Witness for C5: an IPv4-ethertype frame is ignored. -/
theorem correlator_ignores_non_lldp_witness :
    notify_uplink_detected []
      ⟨1, 2, ethernet_pack lldpMulticastMac [1, 2, 3, 4, 5, 6] 0x0800 [0]⟩
      = Except.ok none :=
  correlator_ignores_non_lldp [] _
    ⟨lldpMulticastMac, [1, 2, 3, 4, 5, 6], 0x0800, [0]⟩ rfl (by decide)

/-- C6: an inbound frame with the LLDP ethertype whose payload fails the
LLDP decode, or whose chassis-id sub-value fails the DPID decode (foreign
LLDP traffic), is silently dropped: the Correlator returns without
publishing and without an escaping exception. -/
theorem correlator_drops_foreign_lldp (switches : List Switch)
    (event : PacketInEvent) (eth : EthernetView)
    (hdec : ethernet_unpack event.data = Except.ok eth)
    (hty : eth.ether_type = etherTypeLLDP)
    (hfail : lldp_unpack eth.data = Except.error ()
      ∨ ∃ lldp, lldp_unpack eth.data = Except.ok lldp
          ∧ dpid_unpack lldp.chassis_sub_value = Except.error ()) :
    notify_uplink_detected switches event = Except.ok none := by
  unfold notify_uplink_detected
  simp only [hdec]
  rw [if_pos (by simpa using hty)]
  rcases hfail with h | ⟨lldp, h1, h2⟩
  · rw [h]
  · simp only [h1]
    rw [h2]

/-- Witness for C6: an LLDP frame whose chassis-id sub-value is the
4-byte string "eth0" (a string-type chassis id) is silently dropped. -/
theorem correlator_drops_foreign_lldp_witness :
    notify_uplink_detected []
      ⟨1, 2, ethernet_pack lldpMulticastMac [1, 2, 3, 4, 5, 6] 0x88CC
        (tlv_pack 1 [5, 101, 116, 104, 48] ++ tlv_pack 2 [7, 0, 3]
          ++ tlv_pack 3 [0, 120] ++ tlv_pack 0 [])⟩
      = Except.ok none :=
  correlator_drops_foreign_lldp [] _
    ⟨lldpMulticastMac, [1, 2, 3, 4, 5, 6], 0x88CC,
      tlv_pack 1 [5, 101, 116, 104, 48] ++ tlv_pack 2 [7, 0, 3]
        ++ tlv_pack 3 [0, 120] ++ tlv_pack 0 []⟩
    rfl (by decide)
    (Or.inr ⟨⟨[101, 116, 104, 48], [0, 3]⟩, rfl, rfl⟩)

/-- C1: for each supported version V, datapath id D and non-reserved
port P, the probe frame the Prober builds for (D, P) is accepted by the
version-V command builder, and its serialized bytes fed through the
Correlator's decode pipeline (Ethernet unpack, ethertype check, LLDP
unpack, chassis-id DPID unpack, port-id UBInt16 unpack) yield chassis
id D and port id P. -/
theorem probe_roundtrip (V D P : Nat) (mac : List Nat)
    (hV : V = 0x01 ∨ V = 0x04) (hD : D < 18446744073709551616)
    (hP : P < 65536) (_hPres : P ≠ 65534) (hmac : mac.length = 6) :
    (build_lldp_packet_out (some V) P (probe_frame_bytes D mac P)).isSome = true ∧
    ∃ eth lldp,
      ethernet_unpack (probe_frame_bytes D mac P) = Except.ok eth ∧
      eth.ether_type = etherTypeLLDP ∧
      lldp_unpack eth.data = Except.ok lldp ∧
      dpid_unpack lldp.chassis_sub_value = Except.ok D ∧
      ubint16_unpack lldp.port_sub_value = Except.ok P := by
  constructor
  · rcases hV with h | h <;> subst h <;> rfl
  · refine ⟨⟨lldpMulticastMac, mac, etherTypeLLDP,
      lldp_pack (dpid_pack D) (ubint16_pack P)⟩,
      ⟨dpid_pack D, ubint16_pack P⟩, ?_, rfl, ?_, ?_, ?_⟩
    · exact ethernet_unpack_ethernet_pack lldpMulticastMac mac etherTypeLLDP
        (lldp_pack (dpid_pack D) (ubint16_pack P)) rfl hmac (by norm_num [etherTypeLLDP])
    · exact lldp_unpack_lldp_pack (dpid_pack D) (ubint16_pack P)
        (by rw [dpid_pack, length_bytesOfNat]; omega)
        (by rw [ubint16_pack, length_bytesOfNat]; omega)
    · exact dpid_unpack_dpid_pack D hD
    · exact ubint16_unpack_ubint16_pack P hP

/-- Witness for C1 at V = 0x04, D = 258, P = 3 and a concrete MAC. -/
theorem probe_roundtrip_witness :
    (build_lldp_packet_out (some 0x04) 3
      (probe_frame_bytes 258 [170, 187, 204, 221, 238, 1] 3)).isSome = true ∧
    ∃ eth lldp,
      ethernet_unpack (probe_frame_bytes 258 [170, 187, 204, 221, 238, 1] 3)
        = Except.ok eth ∧
      eth.ether_type = etherTypeLLDP ∧
      lldp_unpack eth.data = Except.ok lldp ∧
      dpid_unpack lldp.chassis_sub_value = Except.ok 258 ∧
      ubint16_unpack lldp.port_sub_value = Except.ok 3 :=
  probe_roundtrip 0x04 258 3 [170, 187, 204, 221, 238, 1]
    (Or.inr rfl) (by norm_num) (by norm_num) (by norm_num) rfl

/-- C7 counterexample: the tick for a snapshot whose first switch raises
while being processed publishes nothing at all and lets the exception
escape, even though the second switch is eligible and would, alone, get
its probe published. This refutes the claim that a per-switch failure is
isolated and the remaining eligible pairs still get their probes. -/
theorem prober_abort_counterexample :
    executeD [Except.error (),
      Except.ok ⟨258, true, some 0x04, [⟨3, [170, 187, 204, 221, 238, 1]⟩]⟩]
      = ([], some ()) ∧
    execute [⟨258, true, some 0x04, [⟨3, [170, 187, 204, 221, 238, 1]⟩]⟩] ≠ [] := by
  exact ⟨rfl, by decide⟩

/-- C7 as amended: the only per-switch condition `execute` isolates is
the absent protocol-version attribute (already `of_version = none` in the
snapshot); any other exception while processing a switch aborts the
remaining iteration — the switches before the failing one have their
probes published, the exception escapes the tick, and every switch after
the failing one gets nothing. -/
theorem prober_abort_on_exception (good : List Switch)
    (ys : List (Except Unit Switch)) :
    executeD (good.map Except.ok ++ Except.error () :: ys)
      = (execute good, some ()) := by
  induction good with
  | nil => rfl
  | cons sw rest ih =>
    simp only [List.map_cons, List.cons_append, executeD, List.append_eq, ih,
      execute, List.flatMap_cons]

/-- C8 counterexample: a well-formed self-probe whose decoded dpid (258)
has no switch in the (empty) inventory makes the handler raise an
AttributeError (from dereferencing the missing switch) instead of
silently skipping the event. -/
theorem correlator_lookup_miss_counterexample :
    notify_uplink_detected []
      ⟨999, 7, probe_frame_bytes 258 [170, 187, 204, 221, 238, 1] 3⟩
      = Except.error PyError.attributeError := by
  rfl

/-- C8 as amended: on a successfully decoded probe whose datapath id has
no switch in the inventory, the Correlator emits no link event but does
not skip silently: the handler raises an uncaught AttributeError from
dereferencing the missing switch. -/
theorem correlator_lookup_miss_raises (switches : List Switch)
    (event : PacketInEvent) (eth : EthernetView) (lldp : LLDPView) (d p : Nat)
    (hdec : ethernet_unpack event.data = Except.ok eth)
    (hty : eth.ether_type = etherTypeLLDP)
    (hlldp : lldp_unpack eth.data = Except.ok lldp)
    (hdpid : dpid_unpack lldp.chassis_sub_value = Except.ok d)
    (hport : ubint16_unpack lldp.port_sub_value = Except.ok p)
    (hmiss : get_switch_by_dpid switches d = none) :
    notify_uplink_detected switches event
      = Except.error PyError.attributeError := by
  unfold notify_uplink_detected
  simp only [hdec]
  rw [if_pos (by simpa using hty)]
  simp only [hlldp, hdpid, hport, hmiss]

/-- Witness for the amended C8 at a concrete probe and empty inventory. -/
theorem correlator_lookup_miss_raises_witness :
    notify_uplink_detected []
      ⟨999, 9, probe_frame_bytes 258 [170, 187, 204, 221, 238, 1] 5⟩
      = Except.error PyError.attributeError :=
  correlator_lookup_miss_raises [] _
    ⟨lldpMulticastMac, [170, 187, 204, 221, 238, 1], etherTypeLLDP,
      lldp_pack (dpid_pack 258) (ubint16_pack 5)⟩
    ⟨dpid_pack 258, ubint16_pack 5⟩ 258 5 rfl rfl rfl rfl rfl rfl

/-- C10: the Correlator performs no distinctness check on the endpoints:
a probe that decodes to dpid D and port P, arriving on the very switch
the lookup resolves D to and on the same ingress port P, still yields
exactly one link event pairing the two identical endpoints. -/
theorem correlator_self_link (switches : List Switch) (sw : Switch)
    (event : PacketInEvent) (eth : EthernetView) (lldp : LLDPView) (P : Nat)
    (hdec : ethernet_unpack event.data = Except.ok eth)
    (hty : eth.ether_type = etherTypeLLDP)
    (hlldp : lldp_unpack eth.data = Except.ok lldp)
    (hdpid : dpid_unpack lldp.chassis_sub_value = Except.ok sw.dpid)
    (hport : ubint16_unpack lldp.port_sub_value = Except.ok P)
    (hfind : get_switch_by_dpid switches sw.dpid = some sw)
    (hsrc : event.source_switch_id = sw.dpid)
    (hin : event.in_port = P) :
    notify_uplink_detected switches event
      = Except.ok (some ⟨sw.dpid, P, sw.dpid, P⟩) := by
  unfold notify_uplink_detected
  simp only [hdec]
  rw [if_pos (by simpa using hty)]
  simp only [hlldp, hdpid, hport, hfind, hsrc, hin]

/-- Witness for C10: a probe carrying dpid 258 and port 3 arriving back
on switch 258 itself, on ingress port 3, with that switch in the
inventory, still produces the degenerate self-link event. -/
theorem correlator_self_link_witness :
    notify_uplink_detected [⟨258, true, some 0x04, []⟩]
      ⟨258, 3, probe_frame_bytes 258 [170, 187, 204, 221, 238, 1] 3⟩
      = Except.ok (some ⟨258, 3, 258, 3⟩) :=
  correlator_self_link [⟨258, true, some 0x04, []⟩] ⟨258, true, some 0x04, []⟩
    ⟨258, 3, probe_frame_bytes 258 [170, 187, 204, 221, 238, 1] 3⟩
    ⟨lldpMulticastMac, [170, 187, 204, 221, 238, 1], etherTypeLLDP,
      lldp_pack (dpid_pack 258) (ubint16_pack 3)⟩
    ⟨dpid_pack 258, ubint16_pack 3⟩ 3 rfl rfl rfl rfl rfl rfl rfl rfl
